import Mathlib

/-!
Shallow embedding of the two hardware-video-probe utilities of this
repository: the V4L2 device prober (`widget/gtk/v4l2test/v4l2test.cpp`)
and the Rockchip MPP library prober (`widget/gtk/mpptest/mpptest.cpp`),
together with theorems settling the specification claims about them.

Modelling conventions:
- C `int` values that only carry a sign or a small bitmask are embedded
  as `Nat` where the source keeps them non-negative and as `Int` where a
  negative value can flow (the V4L2 ioctl result).
- The kernel/driver and the dynamically loaded library are modelled as
  explicit data: a V4L2 device is a record of its open result, QUERYCAP
  answer and the format list of each buffer queue; the MPP library is a
  record of which loads/symbol lookups succeed and which per-candidate
  calls return 0.
- Calls to the result reporter (`record_error` / `record_value`) are
  modelled as a list of emitted records; the printf-style directive used
  for the HWCODECS value (`%s` in v4l2test, `%d` in mpptest) is kept in
  the record so that claims about the rendering can be stated.
- Resource-release effects (`close(fd)` from the scope-exit guard,
  `dlclose`) are modelled as counters in the result.
-/

namespace V4l2

/-- `HwAccelCodec` flag `CODEC_HW_H264 = 1 << 4`. -/
def CODEC_HW_H264 : Nat := 1 <<< 4

/-- `HwAccelCodec` flag `CODEC_HW_VP8 = 1 << 5`. -/
def CODEC_HW_VP8 : Nat := 1 <<< 5

/-- `HwAccelCodec` flag `CODEC_HW_VP9 = 1 << 6`. -/
def CODEC_HW_VP9 : Nat := 1 <<< 6

/-- `HwAccelCodec` flag `CODEC_HW_AV1 = 1 << 7`. -/
def CODEC_HW_AV1 : Nat := 1 <<< 7

/-- FourCC code of `V4L2_PIX_FMT_H264` ('H264'). -/
def V4L2_PIX_FMT_H264 : Nat := 0x34363248

/-- FourCC code of `V4L2_PIX_FMT_NV12` ('NV12'). -/
def V4L2_PIX_FMT_NV12 : Nat := 0x3231564E

/-- FourCC code of `V4L2_PIX_FMT_YVU420` ('YV12'). -/
def V4L2_PIX_FMT_YVU420 : Nat := 0x32315659

/-- V4L2 buffer-queue type `V4L2_BUF_TYPE_VIDEO_CAPTURE`. -/
def V4L2_BUF_TYPE_VIDEO_CAPTURE : Nat := 1

/-- V4L2 buffer-queue type `V4L2_BUF_TYPE_VIDEO_OUTPUT`. -/
def V4L2_BUF_TYPE_VIDEO_OUTPUT : Nat := 2

/-- V4L2 buffer-queue type `V4L2_BUF_TYPE_VIDEO_CAPTURE_MPLANE`. -/
def V4L2_BUF_TYPE_VIDEO_CAPTURE_MPLANE : Nat := 9

/-- V4L2 buffer-queue type `V4L2_BUF_TYPE_VIDEO_OUTPUT_MPLANE`. -/
def V4L2_BUF_TYPE_VIDEO_OUTPUT_MPLANE : Nat := 10

/-- Capability bit `V4L2_CAP_VIDEO_M2M_MPLANE`. -/
def V4L2_CAP_VIDEO_M2M_MPLANE : Nat := 0x00004000

/-- Capability bit `V4L2_CAP_VIDEO_M2M`. -/
def V4L2_CAP_VIDEO_M2M : Nat := 0x00008000

/-- Capability bit `V4L2_CAP_STREAMING`. -/
def V4L2_CAP_STREAMING : Nat := 0x04000000

/-- Capability bit `V4L2_CAP_DEVICE_CAPS`. -/
def V4L2_CAP_DEVICE_CAPS : Nat := 0x80000000

/-- Body of the `switch (fmt.pixelformat)` statement inside the
enumeration loop of `v4l2_supported_fmts`: an H264 format ORs
`CODEC_HW_H264` into `supported`; an NV12 or YVU420 format assigns the
constant `1` to `supported`; the VP8/VP9/AV1 cases are commented out in
the source, and any other format leaves `supported` unchanged. -/
def fmtStep (supported : Nat) (pixelformat : Nat) : Nat :=
  if pixelformat = V4L2_PIX_FMT_H264 then supported ||| CODEC_HW_H264
  else if pixelformat = V4L2_PIX_FMT_NV12 then 1
  else if pixelformat = V4L2_PIX_FMT_YVU420 then 1
  else supported

/-- The `for (fmt.index = 0;; fmt.index++)` loop of
`v4l2_supported_fmts`, starting from the current value of `supported`
and the list of format descriptors the driver still returns at
increasing indices.  When the list is exhausted, `ioctl` fails with
`result = -1` and the source executes `supported = result; break;`, so
the loop's value on termination is `-1`. -/
def v4l2_supported_fmts_from (supported : Nat) : List Nat → Int
  | [] => -1
  | pixelformat :: rest => v4l2_supported_fmts_from (fmtStep supported pixelformat) rest

/-- `v4l2_supported_fmts(aFd, aType)`: enumerate the formats of one
buffer queue (given as the list of pixelformat codes the driver reports
at indices 0, 1, ...) with `supported` initialised to 0. -/
def v4l2_supported_fmts (queue : List Nat) : Int :=
  v4l2_supported_fmts_from 0 queue

/-- QUERYCAP answer: the `capabilities` and `device_caps` fields of
`struct v4l2_capability` that `v4l2_check_device` reads. -/
structure V4l2Cap where
  capabilities : Nat
  device_caps : Nat
  deriving DecidableEq, Repr

/-- Model of one V4L2 device node as the prober can observe it:
the result of `open` (`some fd` with the non-negative descriptor, or
`none` when `open` returns a negative value), the result of
`VIDIOC_QUERYCAP` (`none` when that ioctl fails), and the pixelformat
list of each of the four buffer queues the prober may enumerate. -/
structure V4l2Device where
  openResult : Option Nat
  querycap : Option V4l2Cap
  captureFmts : List Nat
  captureMplaneFmts : List Nat
  outputFmts : List Nat
  outputMplaneFmts : List Nat
  deriving DecidableEq, Repr

/-- The format list the driver serves for a given `aType` argument of
`VIDIOC_ENUM_FMT`. -/
def queueFmts (dev : V4l2Device) (aType : Nat) : List Nat :=
  if aType = V4L2_BUF_TYPE_VIDEO_CAPTURE then dev.captureFmts
  else if aType = V4L2_BUF_TYPE_VIDEO_CAPTURE_MPLANE then dev.captureMplaneFmts
  else if aType = V4L2_BUF_TYPE_VIDEO_OUTPUT then dev.outputFmts
  else if aType = V4L2_BUF_TYPE_VIDEO_OUTPUT_MPLANE then dev.outputMplaneFmts
  else []

/-- The printf-style directive a `record_value` call applies to the
HWCODECS argument: `%d` (decimal) or `%s` (string). -/
inductive FmtDir where
  | d
  | s
  deriving DecidableEq, Repr

/-- One record emitted through the result reporter by the V4L2 prober:
an `ERROR` value from `record_error`, the literal
`record_value("SUPPORTED\nTRUE\n")`, or the
`record_value("HWCODECS\n..\n", hwcodecs)` call together with the
directive it uses for the integer argument. -/
inductive Rec where
  | error (msg : String)
  | value (raw : String)
  | hwcodecs (dir : FmtDir) (arg : Int)
  deriving DecidableEq, Repr

/-- Whether a record is the `HWCODECS` report. -/
def isHwcodecsRec : Rec → Bool
  | Rec.hwcodecs _ _ => true
  | _ => false

/-- The two `record_value` calls on the success path of
`v4l2_check_device`; the second passes the integer `hwcodecs` to a
`%s` directive in the source. -/
def v4l2_success_recs (hwcodecs : Int) : List Rec :=
  [Rec.value "SUPPORTED\nTRUE\n", Rec.hwcodecs FmtDir.s hwcodecs]

/-- The records `v4l2_check_device` emits, following its branch
structure: open failure, QUERYCAP failure, missing `DEVICE_CAPS`,
missing `STREAMING`, missing M2M modes, capture-format check
(`v4l2_supported_fmts(..) <= 0`), and finally the success report with
the output-queue enumeration result. -/
def v4l2_check_recs (dev : V4l2Device) : List Rec :=
  match dev.openResult with
  | none => [Rec.error "V4L2 failed to open device"]
  | some _ =>
    match dev.querycap with
    | none => [Rec.error "V4L2 device failed to query capabilities"]
    | some cap =>
      if cap.capabilities &&& V4L2_CAP_DEVICE_CAPS = 0 then
        [Rec.error "V4L2 device does not support DEVICE_CAPS"]
      else if cap.device_caps &&& V4L2_CAP_STREAMING = 0 then
        [Rec.error "V4L2 device does not support V4L2_CAP_STREAMING"]
      else
        let splane : Bool := cap.device_caps &&& V4L2_CAP_VIDEO_M2M != 0
        let mplane : Bool := cap.device_caps &&& V4L2_CAP_VIDEO_M2M_MPLANE != 0
        if !splane && !mplane then
          [Rec.error "V4L2 device does not support M2M modes"]
        else if v4l2_supported_fmts (queueFmts dev
            (if mplane then V4L2_BUF_TYPE_VIDEO_CAPTURE_MPLANE
             else V4L2_BUF_TYPE_VIDEO_CAPTURE)) ≤ 0 then
          [Rec.error "V4L2 device does not support NV12 or YV12 capture formats"]
        else
          v4l2_success_recs (v4l2_supported_fmts (queueFmts dev
            (if mplane then V4L2_BUF_TYPE_VIDEO_OUTPUT_MPLANE
             else V4L2_BUF_TYPE_VIDEO_OUTPUT)))

/-- The value of the local `fd` in `v4l2_check_device` after the call
to `open`: the descriptor on success, `-1` (the C failure sentinel) on
failure. -/
def v4l2_fd (dev : V4l2Device) : Int :=
  match dev.openResult with
  | some n => (n : Int)
  | none => -1

/-- Effect of the scope-exit guard registered at the top of
`v4l2_check_device`: it runs on every return path and calls `close(fd)`
exactly when `fd >= 0`.  The value is the number of `close` calls. -/
def scopeExitCloses (fd : Int) : Nat := if 0 ≤ fd then 1 else 0

/-- Observable outcome of one `v4l2_check_device` call: the emitted
records and how many times the descriptor was closed. -/
structure V4l2Output where
  recs : List Rec
  closes : Nat
  deriving DecidableEq, Repr

/-- `v4l2_check_device(aVideoDevice)`: emit the records of the branch
taken and run the scope-exit guard on the final value of `fd`. -/
def v4l2_check_device (dev : V4l2Device) : V4l2Output :=
  { recs := v4l2_check_recs dev, closes := scopeExitCloses (v4l2_fd dev) }

/-- `EXIT_SUCCESS`. -/
def EXIT_SUCCESS : Nat := 0

/-- `EXIT_FAILURE`. -/
def EXIT_FAILURE : Nat := 1

/-- `main` of v4l2test, restricted to its observable outcome for a given
`--device` argument: with a device argument it runs `v4l2_check_device`,
flushes, and returns `EXIT_SUCCESS`; without one it prints the usage
text and returns 0.  The first component is the exit status, the second
the emitted records. -/
def v4l2test_main (device : Option V4l2Device) : Nat × List Rec :=
  match device with
  | some dev => (EXIT_SUCCESS, (v4l2_check_device dev).recs)
  | none => (0, [])

/-- A fully capable decoder device in the sense of the spec: it opens,
answers QUERYCAP with `DEVICE_CAPS`, `STREAMING` and single-plane M2M
set, exposes NV12 on the capture queue and H264 on the output queue. -/
def capableDev : V4l2Device :=
  { openResult := some 3,
    querycap := some { capabilities := V4L2_CAP_DEVICE_CAPS,
                       device_caps := V4L2_CAP_STREAMING ||| V4L2_CAP_VIDEO_M2M },
    captureFmts := [V4L2_PIX_FMT_NV12],
    captureMplaneFmts := [],
    outputFmts := [V4L2_PIX_FMT_H264],
    outputMplaneFmts := [] }

/-- A device whose `open` call fails. -/
def openFailDev : V4l2Device :=
  { openResult := none,
    querycap := none,
    captureFmts := [],
    captureMplaneFmts := [],
    outputFmts := [],
    outputMplaneFmts := [] }

/-- Whichever formats were accumulated, the enumeration loop returns the
failing ioctl's `-1`: the source overwrites `supported` with `result`
before breaking. -/
theorem v4l2_supported_fmts_from_neg (queue : List Nat) :
    ∀ supported : Nat, v4l2_supported_fmts_from supported queue = -1 := by
  induction queue with
  | nil => intro s; rfl
  | cons pf rest ih => intro s; exact ih (fmtStep s pf)

/-- `v4l2_supported_fmts` returns `-1` on every queue. -/
theorem v4l2_supported_fmts_neg (queue : List Nat) :
    v4l2_supported_fmts queue = -1 :=
  v4l2_supported_fmts_from_neg queue 0

/-- `v4l2_check_recs` always yields exactly one error record. -/
theorem v4l2_check_recs_is_error (dev : V4l2Device) :
    ∃ msg, v4l2_check_recs dev = [Rec.error msg] := by
  unfold v4l2_check_recs
  cases dev.openResult with
  | none => exact ⟨_, rfl⟩
  | some fd =>
    cases dev.querycap with
    | none => exact ⟨_, rfl⟩
    | some cap =>
      simp only []
      split
      · exact ⟨_, rfl⟩
      · split
        · exact ⟨_, rfl⟩
        · split
          · exact ⟨_, rfl⟩
          · simp only [v4l2_supported_fmts_neg]
            norm_num

end V4l2

namespace Mpp

/-- `HwAccelCodec` flag `CODEC_HW_H264 = 1 << 4`. -/
def CODEC_HW_H264 : Nat := 1 <<< 4

/-- `HwAccelCodec` flag `CODEC_HW_VP8 = 1 << 5`. -/
def CODEC_HW_VP8 : Nat := 1 <<< 5

/-- `HwAccelCodec` flag `CODEC_HW_VP9 = 1 << 6`. -/
def CODEC_HW_VP9 : Nat := 1 <<< 6

/-- `HwAccelCodec` flag `CODEC_HW_AV1 = 1 << 7`. -/
def CODEC_HW_AV1 : Nat := 1 <<< 7

/-- `MppCodingType` value `MPP_VIDEO_CodingAVC`. -/
def MPP_VIDEO_CodingAVC : Nat := 0x7

/-- `MppCodingType` value `MPP_VIDEO_CodingVP8`. -/
def MPP_VIDEO_CodingVP8 : Nat := 0x9

/-- `MppCodingType` value `MPP_VIDEO_CodingVP9`. -/
def MPP_VIDEO_CodingVP9 : Nat := 0xa

/-- `MppCodingType` value `MPP_VIDEO_CodingAV1`. -/
def MPP_VIDEO_CodingAV1 : Nat := 0x01000008

/-- The `hwaccels` array of `main`, in source order. -/
def hwaccels : List Nat := [CODEC_HW_H264, CODEC_HW_VP8, CODEC_HW_VP9, CODEC_HW_AV1]

/-- The `mppcodings` array of `main`, in source order. -/
def mppcodings : List Nat :=
  [MPP_VIDEO_CodingAVC, MPP_VIDEO_CodingVP8, MPP_VIDEO_CodingVP9, MPP_VIDEO_CodingAV1]

/-- Model of the probed `librockchip_mpp.so`: whether `dlopen`
succeeds, whether each of the four `dlsym` lookups succeeds, and for
the per-candidate calls whether they return 0 (success).  `createOk`
is indexed by the loop iteration at which `MppCreate` is called;
`checkOk` and `initOk` are indexed by the `MppCodingType` argument the
source passes them (the context-type argument is always
`MPP_CTX_DEC`). -/
structure MppLib where
  loadOk : Bool
  createSym : Bool
  checkSym : Bool
  initSym : Bool
  destroySym : Bool
  createOk : Nat → Bool
  checkOk : Nat → Bool
  initOk : Nat → Bool

/-- Result of a `dlsym` lookup on the modelled library, by symbol
name; `true` when the symbol resolves. -/
def dlsymOk (lib : MppLib) : String → Bool
  | "mpp_create" => lib.createSym
  | "mpp_check_support_format" => lib.checkSym
  | "mpp_init" => lib.initSym
  | "mpp_destroy" => lib.destroySym
  | _ => false

/-- The `fail` message `main` emits when a given symbol fails to
resolve, naming the function pointer it could not bind. -/
def bindFailMsg : String → String
  | "mpp_create" => "Can not bind MppCreate"
  | "mpp_check_support_format" => "Can not bind MppCheck"
  | "mpp_init" => "Can not bind MppInit"
  | "mpp_destroy" => "Can not bind MppDestroy"
  | _ => ""

/-- One call the probe loop makes into the library: `MppCreate` at
iteration `i` (producing the context tagged `i`), `MppCheck` for a
coding type, `MppInit` of context `i` for a coding type, `mpi->reset`
of context `i`, `MppDestroy` of context `i`. -/
inductive MppEvent where
  | create (i : Nat)
  | check (coding : Nat)
  | init (i : Nat) (coding : Nat)
  | reset (i : Nat)
  | destroy (i : Nat)
  deriving DecidableEq, Repr

/-- Whether an event is an `mpi->reset` call. -/
def isReset : MppEvent → Bool
  | MppEvent.reset _ => true
  | _ => false

/-- Whether an event is an `MppDestroy` call. -/
def isDestroy : MppEvent → Bool
  | MppEvent.destroy _ => true
  | _ => false

/-- The `reset` calls of an event trace, in order. -/
def resets (evs : List MppEvent) : List MppEvent := evs.filter isReset

/-- The `destroy` calls of an event trace, in order. -/
def destroys (evs : List MppEvent) : List MppEvent := evs.filter isDestroy

/-- State threaded through the codec-candidate loop: the `supported`
bitmask and the trace of library calls made so far. -/
structure LoopState where
  supported : Nat
  events : List MppEvent
  deriving Repr

/-- One iteration of the codec loop of `main`, at index `i`: call
`MppCreate` (continue on failure), `MppCheck(MPP_CTX_DEC, mppcodings[i])`
(continue on failure), `MppInit(mppctx, MPP_CTX_DEC, mppcodings[i])`
(continue on failure), and on full success OR `hwaccels[i]` into
`supported`, then call `mpi->reset(mppctx)` and `MppDestroy(mppctx)`.
On the check/init failure paths the created context is left
undestroyed. -/
def mppCandidate (lib : MppLib) (st : LoopState) (i : Nat) : LoopState :=
  let coding := mppcodings.getD i 0
  let evs := st.events ++ [MppEvent.create i]
  if lib.createOk i then
    let evs := evs ++ [MppEvent.check coding]
    if lib.checkOk coding then
      let evs := evs ++ [MppEvent.init i coding]
      if lib.initOk coding then
        { supported := st.supported ||| hwaccels.getD i 0,
          events := evs ++ [MppEvent.reset i, MppEvent.destroy i] }
      else { supported := st.supported, events := evs }
    else { supported := st.supported, events := evs }
  else { supported := st.supported, events := evs }

/-- The complete codec loop: four iterations in array order. -/
def mppLoop (lib : MppLib) : LoopState :=
  (List.range 4).foldl (mppCandidate lib) { supported := 0, events := [] }

/-- One record emitted through the result reporter by the MPP prober:
the `record_value("ERROR\n%s\n", msg)` of `fail`, or the final
`record_value("SUPPORTED\n%s\nHWCODECS\n%d\n", ..)` report, whose
integer is rendered with a `%d` directive. -/
inductive MRec where
  | error (msg : String)
  | final (supportedStr : String) (dir : V4l2.FmtDir) (hwcodecs : Int)
  deriving DecidableEq, Repr

/-- Observable outcome of one run of the MPP prober: emitted records,
trace of library calls, number of `dlclose` calls, exit status. -/
structure MppResult where
  recs : List MRec
  events : List MppEvent
  dlcloses : Nat
  exitCode : Nat

/-- `fail(msg)`: emit the error record, `dlclose` the library iff the
handle is non-null, flush, and return `EXIT_FAILURE`. -/
def mppFail (loaded : Bool) (msg : String) : MppResult :=
  { recs := [MRec.error msg],
    events := [],
    dlcloses := if loaded then 1 else 0,
    exitCode := V4l2.EXIT_FAILURE }

/-- `main` of mpptest: `dlopen`, the four `dlsym` lookups (each failure
goes through `fail`), the codec loop, and the final report followed by
`dlclose` and `EXIT_SUCCESS`. -/
def mpptest_main (lib : MppLib) : MppResult :=
  if !lib.loadOk then mppFail false "Can not load mpp library"
  else if !lib.createSym then mppFail true "Can not bind MppCreate"
  else if !lib.checkSym then mppFail true "Can not bind MppCheck"
  else if !lib.initSym then mppFail true "Can not bind MppInit"
  else if !lib.destroySym then mppFail true "Can not bind MppDestroy"
  else
    let st := mppLoop lib
    { recs := [MRec.final (if st.supported != 0 then "TRUE" else "FALSE")
                 V4l2.FmtDir.d (st.supported : Int)],
      events := st.events,
      dlcloses := 1,
      exitCode := V4l2.EXIT_SUCCESS }

/-- Whether candidate `i` passes all three of `MppCreate`, `MppCheck`
and `MppInit` in its loop iteration. -/
def candidateOk (lib : MppLib) (i : Nat) : Bool :=
  lib.createOk i && lib.checkOk (mppcodings.getD i 0) && lib.initOk (mppcodings.getD i 0)

/-- A candidate iteration on which create, check or init fails leaves
`supported` untouched and adds no `reset` or `destroy` call. -/
theorem mppCandidate_skip (lib : MppLib) (st : LoopState) (i : Nat)
    (h : candidateOk lib i = false) :
    (mppCandidate lib st i).supported = st.supported ∧
    resets (mppCandidate lib st i).events = resets st.events ∧
    destroys (mppCandidate lib st i).events = destroys st.events := by
  simp only [candidateOk] at h
  cases hc : lib.createOk i <;>
    cases hk : lib.checkOk (mppcodings.getD i 0) <;>
      cases hi : lib.initOk (mppcodings.getD i 0) <;>
        simp_all [mppCandidate, resets, destroys, List.filter_append, isReset, isDestroy]

/-- A fully successful candidate iteration ORs its accelerator bit into
`supported` and appends exactly one `reset` and one `destroy` call on
its context. -/
theorem mppCandidate_hit (lib : MppLib) (st : LoopState) (i : Nat)
    (h : candidateOk lib i = true) :
    (mppCandidate lib st i).supported = st.supported ||| hwaccels.getD i 0 ∧
    resets (mppCandidate lib st i).events = resets st.events ++ [MppEvent.reset i] ∧
    destroys (mppCandidate lib st i).events = destroys st.events ++ [MppEvent.destroy i] := by
  simp only [candidateOk] at h
  cases hc : lib.createOk i <;>
    cases hk : lib.checkOk (mppcodings.getD i 0) <;>
      cases hi : lib.initOk (mppcodings.getD i 0) <;>
        simp_all [mppCandidate, resets, destroys, List.filter_append, isReset, isDestroy]

/-- Every event already in the trace is still in it after a candidate
iteration: the loop only appends. -/
theorem mppCandidate_events_mono (lib : MppLib) (st : LoopState) (i : Nat) :
    ∀ e ∈ st.events, e ∈ (mppCandidate lib st i).events := by
  intro e he
  cases hc : lib.createOk i <;>
    cases hk : lib.checkOk (mppcodings.getD i 0) <;>
      cases hi : lib.initOk (mppcodings.getD i 0) <;>
        simp_all [mppCandidate, List.mem_append]

/-- Every candidate iteration calls `MppCreate`, whatever the outcome:
per-candidate failures do not abort the loop before the next create. -/
theorem mppCandidate_creates (lib : MppLib) (st : LoopState) (i : Nat) :
    MppEvent.create i ∈ (mppCandidate lib st i).events := by
  cases hc : lib.createOk i <;>
    cases hk : lib.checkOk (mppcodings.getD i 0) <;>
      cases hi : lib.initOk (mppcodings.getD i 0) <;>
        simp_all [mppCandidate, List.mem_append]

/-- A library whose `dlopen` fails. -/
def libNoLoad : MppLib :=
  { loadOk := false, createSym := false, checkSym := false, initSym := false,
    destroySym := false, createOk := fun _ => false, checkOk := fun _ => false,
    initOk := fun _ => false }

/-- A library that loads but whose `mpp_check_support_format` symbol is
missing. -/
def libMissingCheckSym : MppLib :=
  { loadOk := true, createSym := true, checkSym := false, initSym := true,
    destroySym := true, createOk := fun _ => false, checkOk := fun _ => false,
    initOk := fun _ => false }

/-- A library that loads and resolves every symbol but whose
`MppCreate` call fails at every iteration. -/
def libAllFail : MppLib :=
  { loadOk := true, createSym := true, checkSym := true, initSym := true,
    destroySym := true, createOk := fun _ => false, checkOk := fun _ => false,
    initOk := fun _ => false }

/-- A library that loads, resolves every symbol, creates contexts at
every iteration, and passes the format check and init exactly for the
VP9 coding type. -/
def libVp9Only : MppLib :=
  { loadOk := true, createSym := true, checkSym := true, initSym := true,
    destroySym := true, createOk := fun _ => true,
    checkOk := fun coding => coding == MPP_VIDEO_CodingVP9,
    initOk := fun coding => coding == MPP_VIDEO_CodingVP9 }

end Mpp

/-- C1: the claim is refuted by the code.  No device ever makes
`v4l2_check_device` emit the `SUPPORTED`/`TRUE` success report, because
the enumeration loop overwrites the accumulated bitmask with the
failing ioctl's `-1`; in particular the fully capable device with NV12
on the capture queue and H264 on the output queue is reported as not
supporting NV12 or YV12 capture formats. -/
theorem c1_success_unreachable :
    (∀ dev : V4l2.V4l2Device,
        V4l2.Rec.value "SUPPORTED\nTRUE\n" ∉ (V4l2.v4l2_check_device dev).recs) ∧
    V4l2.capableDev.captureFmts = [V4l2.V4L2_PIX_FMT_NV12] ∧
    V4l2.capableDev.outputFmts = [V4l2.V4L2_PIX_FMT_H264] ∧
    (V4l2.v4l2_check_device V4l2.capableDev).recs =
      [V4l2.Rec.error "V4L2 device does not support NV12 or YV12 capture formats"] := by
  refine ⟨?_, rfl, rfl, rfl⟩
  intro dev hmem
  obtain ⟨msg, hm⟩ := V4l2.v4l2_check_recs_is_error dev
  rw [show (V4l2.v4l2_check_device dev).recs = V4l2.v4l2_check_recs dev from rfl, hm] at hmem
  simp at hmem

/-- C2: the claim is refuted by the code.  `v4l2_supported_fmts`
returns the failing ioctl's `-1` on every queue, so the formats
recognized at earlier indices never determine the function's result; in
particular a queue whose index 0 holds NV12 (which sets the accumulator
to 1, as `fmtStep` shows) still yields `-1`. -/
theorem c2_accumulated_formats_discarded :
    (∀ queue : List Nat, V4l2.v4l2_supported_fmts queue = -1) ∧
    V4l2.fmtStep 0 V4l2.V4L2_PIX_FMT_NV12 = 1 ∧
    V4l2.v4l2_supported_fmts [V4l2.V4L2_PIX_FMT_NV12] = -1 :=
  ⟨V4l2.v4l2_supported_fmts_neg, by decide, by decide⟩

/-- C3: the claim is refuted by the code.  The success path of
`v4l2_check_device` renders the HWCODECS value with the `%s` string
directive, never the `%d` decimal directive, and the success path is
unreachable anyway: even the fully capable device produces no HWCODECS
record at all. -/
theorem c3_hwcodecs_never_decimal :
    (∀ h : Int, (V4l2.v4l2_success_recs h).filter V4l2.isHwcodecsRec =
        [V4l2.Rec.hwcodecs V4l2.FmtDir.s h]) ∧
    V4l2.FmtDir.s ≠ V4l2.FmtDir.d ∧
    (V4l2.v4l2_check_device V4l2.capableDev).recs.filter V4l2.isHwcodecsRec = [] :=
  ⟨fun _ => rfl, by decide, rfl⟩

/-- C4 counterexample: a run of the device prober on a device whose
`open` call fails (a required resource could not be acquired) still
exits with status 0, contradicting the claim's non-zero requirement. -/
theorem c4_counterexample :
    V4l2.openFailDev.openResult = none ∧
    (V4l2.v4l2test_main (some V4l2.openFailDev)).1 = 0 :=
  ⟨rfl, rfl⟩

/-- C4 (amended): the device prober exits 0 on every run that was given
a device argument, open failure included; only the library prober exits
non-zero on a load or symbol-resolution failure, and it exits 0 when
the probe ran to completion. -/
theorem c4_amended_exit_codes (dev : V4l2.V4l2Device) (lib : Mpp.MppLib) :
    (V4l2.v4l2test_main (some dev)).1 = 0 ∧
    (V4l2.v4l2test_main none).1 = 0 ∧
    (lib.loadOk = false → (Mpp.mpptest_main lib).exitCode ≠ 0) ∧
    ((lib.createSym && lib.checkSym && lib.initSym && lib.destroySym) = false →
      (Mpp.mpptest_main lib).exitCode ≠ 0) ∧
    ((lib.loadOk && lib.createSym && lib.checkSym && lib.initSym && lib.destroySym) = true →
      (Mpp.mpptest_main lib).exitCode = 0) := by
  refine ⟨rfl, rfl, ?_, ?_, ?_⟩
  · intro h
    simp [Mpp.mpptest_main, Mpp.mppFail, h, V4l2.EXIT_FAILURE]
  · intro hsym
    cases hl : lib.loadOk
    · simp [Mpp.mpptest_main, Mpp.mppFail, hl, V4l2.EXIT_FAILURE]
    · cases h1 : lib.createSym <;> cases h2 : lib.checkSym <;>
        cases h3 : lib.initSym <;> cases h4 : lib.destroySym <;>
          simp_all [Mpp.mpptest_main, Mpp.mppFail, V4l2.EXIT_FAILURE]
  · intro hall
    rw [Bool.and_eq_true, Bool.and_eq_true, Bool.and_eq_true, Bool.and_eq_true] at hall
    obtain ⟨⟨⟨⟨hl, h1⟩, h2⟩, h3⟩, h4⟩ := hall
    simp [Mpp.mpptest_main, hl, h1, h2, h3, h4, V4l2.EXIT_SUCCESS]

/-- C4 witness: the amended exit-code statement at concrete inputs: an
open-failure device run exits 0, a library that fails to load or lacks
a symbol exits non-zero, a library that probes to completion exits 0. -/
theorem c4_amended_exit_codes_witness :
    (V4l2.v4l2test_main (some V4l2.openFailDev)).1 = 0 ∧
    (Mpp.mpptest_main Mpp.libNoLoad).exitCode ≠ 0 ∧
    (Mpp.mpptest_main Mpp.libMissingCheckSym).exitCode ≠ 0 ∧
    (Mpp.mpptest_main Mpp.libAllFail).exitCode = 0 :=
  ⟨(c4_amended_exit_codes V4l2.openFailDev Mpp.libNoLoad).1,
   (c4_amended_exit_codes V4l2.openFailDev Mpp.libNoLoad).2.2.1 rfl,
   (c4_amended_exit_codes V4l2.openFailDev Mpp.libMissingCheckSym).2.2.2.1 rfl,
   (c4_amended_exit_codes V4l2.openFailDev Mpp.libAllFail).2.2.2.2 rfl⟩

/-- C5: a library that loads and resolves all four symbols but whose
create/check/init fails for each of the four candidates completes
normally: it reports `SUPPORTED`/`FALSE` with bitmask 0, closes the
library once, exits 0, and still attempted the create call of every
candidate (no per-candidate failure aborts the loop). -/
theorem c5_all_candidates_fail_nonfatal (lib : Mpp.MppLib)
    (hload : lib.loadOk = true)
    (hsyms : (lib.createSym && lib.checkSym && lib.initSym && lib.destroySym) = true)
    (h0 : Mpp.candidateOk lib 0 = false) (h1 : Mpp.candidateOk lib 1 = false)
    (h2 : Mpp.candidateOk lib 2 = false) (h3 : Mpp.candidateOk lib 3 = false) :
    (Mpp.mpptest_main lib).recs = [Mpp.MRec.final "FALSE" V4l2.FmtDir.d 0] ∧
    (Mpp.mpptest_main lib).exitCode = 0 ∧
    (Mpp.mpptest_main lib).dlcloses = 1 ∧
    (∀ i, i < 4 → Mpp.MppEvent.create i ∈ (Mpp.mpptest_main lib).events) := by
  rw [Bool.and_eq_true, Bool.and_eq_true, Bool.and_eq_true] at hsyms
  obtain ⟨⟨⟨hcs, hks⟩, his⟩, hds⟩ := hsyms
  have hsup : (Mpp.mppLoop lib).supported = 0 := by
    show (List.foldl (Mpp.mppCandidate lib)
      { supported := 0, events := [] } (List.range 4)).supported = 0
    rw [show List.range 4 = [0, 1, 2, 3] from rfl]
    simp only [List.foldl]
    rw [(Mpp.mppCandidate_skip lib _ 3 h3).1, (Mpp.mppCandidate_skip lib _ 2 h2).1,
        (Mpp.mppCandidate_skip lib _ 1 h1).1, (Mpp.mppCandidate_skip lib _ 0 h0).1]
  have hcre : ∀ i, i < 4 → Mpp.MppEvent.create i ∈ (Mpp.mppLoop lib).events := by
    intro i hi
    show Mpp.MppEvent.create i ∈ (List.foldl (Mpp.mppCandidate lib)
      { supported := 0, events := [] } (List.range 4)).events
    rw [show List.range 4 = [0, 1, 2, 3] from rfl]
    simp only [List.foldl]
    interval_cases i
    · exact Mpp.mppCandidate_events_mono _ _ 3
        (Mpp.MppEvent.create 0) (Mpp.mppCandidate_events_mono _ _ 2
          (Mpp.MppEvent.create 0) (Mpp.mppCandidate_events_mono _ _ 1
            (Mpp.MppEvent.create 0) (Mpp.mppCandidate_creates lib _ 0)))
    · exact Mpp.mppCandidate_events_mono _ _ 3
        (Mpp.MppEvent.create 1) (Mpp.mppCandidate_events_mono _ _ 2
          (Mpp.MppEvent.create 1) (Mpp.mppCandidate_creates lib _ 1))
    · exact Mpp.mppCandidate_events_mono _ _ 3
        (Mpp.MppEvent.create 2) (Mpp.mppCandidate_creates lib _ 2)
    · exact Mpp.mppCandidate_creates lib _ 3
  refine ⟨?_, ?_, ?_, ?_⟩
  · simp [Mpp.mpptest_main, hload, hcs, hks, his, hds, hsup]
  · simp [Mpp.mpptest_main, hload, hcs, hks, his, hds, V4l2.EXIT_SUCCESS]
  · simp [Mpp.mpptest_main, hload, hcs, hks, his, hds]
  · intro i hi
    have := hcre i hi
    simpa [Mpp.mpptest_main, hload, hcs, hks, his, hds] using this

/-- C5 witness: the statement at a concrete library whose `MppCreate`
fails at every iteration. -/
theorem c5_all_candidates_fail_nonfatal_witness :
    (Mpp.mpptest_main Mpp.libAllFail).recs = [Mpp.MRec.final "FALSE" V4l2.FmtDir.d 0] ∧
    (Mpp.mpptest_main Mpp.libAllFail).exitCode = 0 ∧
    (Mpp.mpptest_main Mpp.libAllFail).dlcloses = 1 ∧
    (∀ i, i < 4 → Mpp.MppEvent.create i ∈ (Mpp.mpptest_main Mpp.libAllFail).events) :=
  c5_all_candidates_fail_nonfatal Mpp.libAllFail rfl rfl rfl rfl rfl rfl

/-- C6: when create, check and init all succeed exactly for the third
candidate (iteration 2, the VP9 coding type), the reported bitmask is
exactly the VP9 accelerator bit `1 << 6 = 64`, and the `reset` and
`destroy` entry points are each invoked exactly once, on the context
created at the VP9 iteration. -/
theorem c6_vp9_only_bitmask_and_teardown (lib : Mpp.MppLib)
    (hload : lib.loadOk = true)
    (hsyms : (lib.createSym && lib.checkSym && lib.initSym && lib.destroySym) = true)
    (h0 : Mpp.candidateOk lib 0 = false) (h1 : Mpp.candidateOk lib 1 = false)
    (h2 : Mpp.candidateOk lib 2 = true) (h3 : Mpp.candidateOk lib 3 = false) :
    (Mpp.mpptest_main lib).recs = [Mpp.MRec.final "TRUE" V4l2.FmtDir.d 64] ∧
    Mpp.CODEC_HW_VP9 = 64 ∧
    Mpp.mppcodings.getD 2 0 = Mpp.MPP_VIDEO_CodingVP9 ∧
    Mpp.resets (Mpp.mpptest_main lib).events = [Mpp.MppEvent.reset 2] ∧
    Mpp.destroys (Mpp.mpptest_main lib).events = [Mpp.MppEvent.destroy 2] := by
  rw [Bool.and_eq_true, Bool.and_eq_true, Bool.and_eq_true] at hsyms
  obtain ⟨⟨⟨hcs, hks⟩, his⟩, hds⟩ := hsyms
  have hsup : (Mpp.mppLoop lib).supported = 64 := by
    show (List.foldl (Mpp.mppCandidate lib)
      { supported := 0, events := [] } (List.range 4)).supported = 64
    rw [show List.range 4 = [0, 1, 2, 3] from rfl]
    simp only [List.foldl]
    rw [(Mpp.mppCandidate_skip lib _ 3 h3).1, (Mpp.mppCandidate_hit lib _ 2 h2).1,
        (Mpp.mppCandidate_skip lib _ 1 h1).1, (Mpp.mppCandidate_skip lib _ 0 h0).1]
    decide
  have hres : Mpp.resets (Mpp.mppLoop lib).events = [Mpp.MppEvent.reset 2] := by
    show Mpp.resets (List.foldl (Mpp.mppCandidate lib)
      { supported := 0, events := [] } (List.range 4)).events = _
    rw [show List.range 4 = [0, 1, 2, 3] from rfl]
    simp only [List.foldl]
    rw [(Mpp.mppCandidate_skip lib _ 3 h3).2.1, (Mpp.mppCandidate_hit lib _ 2 h2).2.1,
        (Mpp.mppCandidate_skip lib _ 1 h1).2.1, (Mpp.mppCandidate_skip lib _ 0 h0).2.1]
    rfl
  have hdes : Mpp.destroys (Mpp.mppLoop lib).events = [Mpp.MppEvent.destroy 2] := by
    show Mpp.destroys (List.foldl (Mpp.mppCandidate lib)
      { supported := 0, events := [] } (List.range 4)).events = _
    rw [show List.range 4 = [0, 1, 2, 3] from rfl]
    simp only [List.foldl]
    rw [(Mpp.mppCandidate_skip lib _ 3 h3).2.2, (Mpp.mppCandidate_hit lib _ 2 h2).2.2,
        (Mpp.mppCandidate_skip lib _ 1 h1).2.2, (Mpp.mppCandidate_skip lib _ 0 h0).2.2]
    rfl
  refine ⟨?_, rfl, rfl, ?_, ?_⟩
  · simp [Mpp.mpptest_main, hload, hcs, hks, his, hds, hsup]
  · simpa [Mpp.mpptest_main, hload, hcs, hks, his, hds] using hres
  · simpa [Mpp.mpptest_main, hload, hcs, hks, his, hds] using hdes

/-- C6 witness: the statement at a concrete library that creates
contexts everywhere and passes check/init exactly for the VP9 coding
type. -/
theorem c6_vp9_only_bitmask_and_teardown_witness :
    (Mpp.mpptest_main Mpp.libVp9Only).recs = [Mpp.MRec.final "TRUE" V4l2.FmtDir.d 64] ∧
    Mpp.CODEC_HW_VP9 = 64 ∧
    Mpp.mppcodings.getD 2 0 = Mpp.MPP_VIDEO_CodingVP9 ∧
    Mpp.resets (Mpp.mpptest_main Mpp.libVp9Only).events = [Mpp.MppEvent.reset 2] ∧
    Mpp.destroys (Mpp.mpptest_main Mpp.libVp9Only).events = [Mpp.MppEvent.destroy 2] :=
  c6_vp9_only_bitmask_and_teardown Mpp.libVp9Only rfl rfl rfl rfl rfl rfl

/-- C7: when the library loads but any of the four symbol lookups
fails, the prober emits exactly one error record, naming the first
unresolved binding; it makes no library call (no codec candidate is
probed), closes the library exactly once, and exits `EXIT_FAILURE`. -/
theorem c7_missing_symbol_stops (lib : Mpp.MppLib)
    (hload : lib.loadOk = true)
    (hmiss : (lib.createSym && lib.checkSym && lib.initSym && lib.destroySym) = false) :
    ∃ s, Mpp.dlsymOk lib s = false ∧
      (Mpp.mpptest_main lib).recs = [Mpp.MRec.error (Mpp.bindFailMsg s)] ∧
      (Mpp.mpptest_main lib).events = [] ∧
      (Mpp.mpptest_main lib).dlcloses = 1 ∧
      (Mpp.mpptest_main lib).exitCode = V4l2.EXIT_FAILURE := by
  cases h1 : lib.createSym with
  | false =>
    exact ⟨"mpp_create", h1,
      by simp [Mpp.mpptest_main, Mpp.mppFail, hload, h1, Mpp.bindFailMsg],
      by simp [Mpp.mpptest_main, Mpp.mppFail, hload, h1],
      by simp [Mpp.mpptest_main, Mpp.mppFail, hload, h1],
      by simp [Mpp.mpptest_main, Mpp.mppFail, hload, h1]⟩
  | true =>
    cases h2 : lib.checkSym with
    | false =>
      exact ⟨"mpp_check_support_format", h2,
        by simp [Mpp.mpptest_main, Mpp.mppFail, hload, h1, h2, Mpp.bindFailMsg],
        by simp [Mpp.mpptest_main, Mpp.mppFail, hload, h1, h2],
        by simp [Mpp.mpptest_main, Mpp.mppFail, hload, h1, h2],
        by simp [Mpp.mpptest_main, Mpp.mppFail, hload, h1, h2]⟩
    | true =>
      cases h3 : lib.initSym with
      | false =>
        exact ⟨"mpp_init", h3,
          by simp [Mpp.mpptest_main, Mpp.mppFail, hload, h1, h2, h3, Mpp.bindFailMsg],
          by simp [Mpp.mpptest_main, Mpp.mppFail, hload, h1, h2, h3],
          by simp [Mpp.mpptest_main, Mpp.mppFail, hload, h1, h2, h3],
          by simp [Mpp.mpptest_main, Mpp.mppFail, hload, h1, h2, h3]⟩
      | true =>
        cases h4 : lib.destroySym with
        | false =>
          exact ⟨"mpp_destroy", h4,
            by simp [Mpp.mpptest_main, Mpp.mppFail, hload, h1, h2, h3, h4, Mpp.bindFailMsg],
            by simp [Mpp.mpptest_main, Mpp.mppFail, hload, h1, h2, h3, h4],
            by simp [Mpp.mpptest_main, Mpp.mppFail, hload, h1, h2, h3, h4],
            by simp [Mpp.mpptest_main, Mpp.mppFail, hload, h1, h2, h3, h4]⟩
        | true =>
          rw [h1, h2, h3, h4] at hmiss
          exact absurd hmiss (by decide)

/-- C7 witness: the statement at a concrete library whose
`mpp_check_support_format` lookup fails. -/
theorem c7_missing_symbol_stops_witness :
    ∃ s, Mpp.dlsymOk Mpp.libMissingCheckSym s = false ∧
      (Mpp.mpptest_main Mpp.libMissingCheckSym).recs = [Mpp.MRec.error (Mpp.bindFailMsg s)] ∧
      (Mpp.mpptest_main Mpp.libMissingCheckSym).events = [] ∧
      (Mpp.mpptest_main Mpp.libMissingCheckSym).dlcloses = 1 ∧
      (Mpp.mpptest_main Mpp.libMissingCheckSym).exitCode = V4l2.EXIT_FAILURE :=
  c7_missing_symbol_stops Mpp.libMissingCheckSym rfl rfl

/-- C8: a candidate iteration on which `MppCreate` succeeds but the
format check or the init fails leaves the `supported` bitmask
untouched and performs no `MppDestroy` (the created context is
abandoned) and no `reset`. -/
theorem c8_check_or_init_failure_leaks_context (lib : Mpp.MppLib)
    (st : Mpp.LoopState) (i : Nat)
    (hc : lib.createOk i = true)
    (hf : (lib.checkOk (Mpp.mppcodings.getD i 0)
            && lib.initOk (Mpp.mppcodings.getD i 0)) = false) :
    (Mpp.mppCandidate lib st i).supported = st.supported ∧
    Mpp.destroys (Mpp.mppCandidate lib st i).events = Mpp.destroys st.events ∧
    Mpp.resets (Mpp.mppCandidate lib st i).events = Mpp.resets st.events := by
  have hco : Mpp.candidateOk lib i = false := by
    simp only [Mpp.candidateOk, hc, Bool.true_and]
    exact hf
  have h := Mpp.mppCandidate_skip lib st i hco
  exact ⟨h.1, h.2.2, h.2.1⟩

/-- C8 witness: the statement at the VP9-only library's H264 iteration,
whose create succeeds and whose check fails, starting from the empty
loop state. -/
theorem c8_check_or_init_failure_leaks_context_witness :
    (Mpp.mppCandidate Mpp.libVp9Only { supported := 0, events := [] } 0).supported = 0 ∧
    Mpp.destroys (Mpp.mppCandidate Mpp.libVp9Only
      { supported := 0, events := [] } 0).events = [] ∧
    Mpp.resets (Mpp.mppCandidate Mpp.libVp9Only
      { supported := 0, events := [] } 0).events = [] :=
  c8_check_or_init_failure_leaks_context Mpp.libVp9Only
    { supported := 0, events := [] } 0 rfl rfl

/-- C9: on every control-flow path, each prober releases its top-level
OS handle exactly once when it was acquired and never otherwise: the
device descriptor is closed once iff `open` succeeded, and the library
handle is `dlclose`d once iff `dlopen` succeeded. -/
theorem c9_handle_released_exactly_once (dev : V4l2.V4l2Device) (lib : Mpp.MppLib) :
    (V4l2.v4l2_check_device dev).closes = (if dev.openResult.isSome then 1 else 0) ∧
    (Mpp.mpptest_main lib).dlcloses = (if lib.loadOk then 1 else 0) := by
  constructor
  · cases ho : dev.openResult with
    | none => simp [V4l2.v4l2_check_device, V4l2.v4l2_fd, V4l2.scopeExitCloses, ho]
    | some n =>
      simp [V4l2.v4l2_check_device, V4l2.v4l2_fd, V4l2.scopeExitCloses, ho,
        Int.natCast_nonneg]
  · cases hl : lib.loadOk
    · simp [Mpp.mpptest_main, Mpp.mppFail, hl]
    · cases h1 : lib.createSym <;> cases h2 : lib.checkSym <;>
        cases h3 : lib.initSym <;> cases h4 : lib.destroySym <;>
          simp [Mpp.mpptest_main, Mpp.mppFail, hl, h1, h2, h3, h4]

/-- C10: in the format-enumeration switch, an NV12 or YVU420 descriptor
assigns the constant 1 to the accumulator instead of OR-ing into it,
whatever the accumulator held; in particular the H264 bit accumulated
earlier (the `supported |= CODEC_HW_H264` branch) is discarded at that
point. -/
theorem c10_nv12_assignment_discards_h264 (s : Nat) :
    V4l2.fmtStep s V4l2.V4L2_PIX_FMT_NV12 = 1 ∧
    V4l2.fmtStep s V4l2.V4L2_PIX_FMT_YVU420 = 1 ∧
    V4l2.fmtStep s V4l2.V4L2_PIX_FMT_H264 = s ||| V4l2.CODEC_HW_H264 ∧
    V4l2.fmtStep (V4l2.fmtStep s V4l2.V4L2_PIX_FMT_H264) V4l2.V4L2_PIX_FMT_NV12
      &&& V4l2.CODEC_HW_H264 = 0 := by
  refine ⟨?_, ?_, ?_, ?_⟩ <;>
    simp +decide [V4l2.fmtStep, V4l2.V4L2_PIX_FMT_NV12, V4l2.V4L2_PIX_FMT_YVU420,
      V4l2.V4L2_PIX_FMT_H264, V4l2.CODEC_HW_H264]

/-- C9 witness: the release counts at a concrete device and library. -/
theorem c9_handle_released_exactly_once_witness :
    (V4l2.v4l2_check_device V4l2.capableDev).closes =
      (if V4l2.capableDev.openResult.isSome then 1 else 0) ∧
    (Mpp.mpptest_main Mpp.libNoLoad).dlcloses =
      (if Mpp.libNoLoad.loadOk then 1 else 0) :=
  c9_handle_released_exactly_once V4l2.capableDev Mpp.libNoLoad

/-- C10 witness: the switch-body facts at the concrete accumulator
value 5. -/
theorem c10_nv12_assignment_discards_h264_witness :
    V4l2.fmtStep 5 V4l2.V4L2_PIX_FMT_NV12 = 1 ∧
    V4l2.fmtStep 5 V4l2.V4L2_PIX_FMT_YVU420 = 1 ∧
    V4l2.fmtStep 5 V4l2.V4L2_PIX_FMT_H264 = 5 ||| V4l2.CODEC_HW_H264 ∧
    V4l2.fmtStep (V4l2.fmtStep 5 V4l2.V4L2_PIX_FMT_H264) V4l2.V4L2_PIX_FMT_NV12
      &&& V4l2.CODEC_HW_H264 = 0 :=
  c10_nv12_assignment_discards_h264 5
